import Mathlib

/-!
Verification of the Smart Grid serious-game simulation core
(`game/grid_model.py`, `game/stochastic_engine.py`, `game/smart_grid_env.py`)
against its natural-language specification.

Machine reals are modelled as `ℚ`; the numpy random generator is modelled as
an explicit stream (`List ℚ`) of standard-normal draws that every sampling
function consumes from the front, so that a `normal(loc := 0, scale := σ)`
draw becomes `σ * z` for the next stream element `z`.
-/

namespace SmartGrid

/-- Embedding of `PowerPlant.__init__` (grid_model.py): static parameters plus
the mutable fields `current_power` and `is_on`. -/
structure PowerPlant where
  name : String
  plant_type : String
  p_max : ℚ
  p_min : ℚ
  cost_per_mw : ℚ
  co2_per_mw : ℚ
  ramp_rate : ℚ
  current_power : ℚ := 0
  is_on : Bool := false
deriving Repr, DecidableEq

/-- Embedding of `PowerPlant.step_power` (grid_model.py lines 18-41): clamp a
sub-minimum positive target to 0, cap at `p_max`, limit the change by
`ramp_rate`, update `current_power` and `is_on`, and return the updated plant
together with the hourly cost and hourly CO2. -/
def PowerPlant.step_power (p : PowerPlant) (target_power : ℚ) :
    PowerPlant × ℚ × ℚ :=
  let t1 : ℚ := if 0 < target_power ∧ target_power < p.p_min then 0 else target_power
  let t2 : ℚ := min t1 p.p_max
  let delta0 : ℚ := t2 - p.current_power
  let delta : ℚ :=
    if p.ramp_rate < |delta0| then (if 0 < delta0 then p.ramp_rate else -p.ramp_rate)
    else delta0
  let newPower : ℚ := p.current_power + delta
  ({ p with current_power := newPower, is_on := decide (0 < newPower) },
   newPower * p.cost_per_mw, newPower * p.co2_per_mw)

/-- Embedding of `Consumer` (grid_model.py). -/
structure Consumer where
  name : String
  base_load : ℚ
  current_load : ℚ
deriving Repr, DecidableEq

/-- Embedding of `Consumer.update_load`. -/
def Consumer.update_load (c : Consumer) (new_load : ℚ) : Consumer :=
  { c with current_load := new_load }

/-- Embedding of `Grid`: the plant list and the consumer list. -/
structure Grid where
  plants : List PowerPlant
  consumers : List Consumer
deriving Repr, DecidableEq

/-- The dictionary returned by `Grid.step_balance`. -/
structure Balance where
  total_production : ℚ
  total_demand : ℚ
  delta : ℚ
  is_blackout : Bool
  unmet_demand : ℚ
  wasted_energy : ℚ
deriving Repr, DecidableEq

/-- Embedding of `Grid.step_balance` (grid_model.py lines 66-88). -/
def Grid.step_balance (g : Grid) : Balance :=
  let total_prod : ℚ := (g.plants.map (fun p => p.current_power)).sum
  let total_demand : ℚ := (g.consumers.map (fun c => c.current_load)).sum
  let delta : ℚ := total_prod - total_demand
  { total_production := total_prod
    total_demand := total_demand
    delta := delta
    is_blackout := decide (delta < 0)
    unmet_demand := if delta < 0 then |delta| else 0
    wasted_energy := if 0 < delta then delta else 0 }

/-- Embedding of `np.linspace(start, stop, num)` (endpoint included) over ℚ.
numpy returns `start + i * (stop - start) / (num - 1)` for `i = 0 .. num-1`
(and exactly `[start]` when `num = 1`, `[]` when `num = 0`); over ℚ the exact
final-entry assignment `arr[-1] = stop` is already implied. -/
def linspace (start stop : ℚ) (num : ℕ) : List ℚ :=
  if num = 0 then []
  else if num = 1 then [start]
  else (List.range num).map
    (fun (i : ℕ) => start + (i : ℚ) * (stop - start) / ((num : ℚ) - 1))

/-- Embedding of `StochasticProfile.__init__` (stochastic_engine.py).  The
shared `np.random.Generator` is not stored here; it is passed explicitly as a
stream of standard-normal draws to each sampling call (see
`StochasticProfile.get_actual_and_forecast`). -/
structure StochasticProfile where
  base_profile : List ℚ
  noise_volatility : ℚ
deriving Repr, DecidableEq

/-- Embedding of `StochasticProfile.get_actual_and_forecast`
(stochastic_engine.py lines 12-35).  The generator is modelled as a stream
`rng : List ℚ` of standard-normal draws, conceptually infinite (indices past
the end read as 0), so `rng.normal(loc := 0, scale := σᵢ)` for the i-th
element becomes `σᵢ * rng.getD i 0`, and the call consumes `horizon + 1`
draws, returning the advanced stream `rng.drop (horizon + 1)`. -/
def StochasticProfile.get_actual_and_forecast (sp : StochasticProfile)
    (current_hour : ℕ) (horizon : ℕ) (rng : List ℚ) : ℚ × List ℚ × List ℚ :=
  let hours : List ℕ := (List.range (horizon + 1)).map (fun i => (current_hour + i) % 24)
  let trend : List ℚ := hours.map (fun h => sp.base_profile.getD h 0)
  let uncertainty_growth : List ℚ := linspace (1/2) 3 (horizon + 1)
  let noise_std : List ℚ :=
    List.zipWith (fun t u => sp.noise_volatility * t * u) trend uncertainty_growth
  let draws : List ℚ := (List.range (horizon + 1)).map (fun i => rng.getD i 0)
  let noise : List ℚ := List.zipWith (fun s z => s * z) noise_std draws
  let values : List ℚ :=
    (List.zipWith (fun t n => t + n) trend noise).map (fun v => max v 0)
  (values.headD 0, values.tail, rng.drop (horizon + 1))

/-- The trend value the profile reads for offset `i` from hour `h`:
`base_profile[(h + i) % 24]` (stochastic_engine.py lines 17-18). -/
def trendAt (sp : StochasticProfile) (h i : ℕ) : ℚ :=
  sp.base_profile.getD ((h + i) % 24) 0

/-- The uncertainty multiplier at offset `i` of a horizon-`hor` forecast:
the i-th entry of `np.linspace(0.5, 3.0, hor + 1)`, i.e.
`1/2 + i * (5/2) / hor` (for `hor ≥ 1`). -/
def multAt (hor i : ℕ) : ℚ :=
  1/2 + (i : ℚ) * (5/2) / (hor : ℚ)

/-- The per-element noise standard deviation at offset `i`:
`volatility * trend * multiplier` (stochastic_engine.py line 24). -/
def stdAt (sp : StochasticProfile) (h hor i : ℕ) : ℚ :=
  sp.noise_volatility * trendAt sp h i * multAt hor i

/-- The clamped sampled value at offset `i`:
`max (trend + std * z) 0` with `z` the i-th standard-normal draw. -/
def valueAt (sp : StochasticProfile) (h hor : ℕ) (rng : List ℚ) (i : ℕ) : ℚ :=
  max (trendAt sp h i + stdAt sp h hor i * rng.getD i 0) 0

/-- The 24-hour demand profile from `StochasticEngine.__init__`
(stochastic_engine.py lines 43-44). -/
def demand_profile : List ℚ :=
  [3/5, 11/20, 1/2, 1/2, 11/20, 13/20, 4/5, 9/10, 19/20, 9/10, 17/20, 17/20,
   17/20, 17/20, 17/20, 17/20, 9/10, 19/20, 1, 19/20, 9/10, 4/5, 7/10, 13/20]

/-- The 24-hour solar profile from `StochasticEngine.__init__`
(stochastic_engine.py lines 47-48). -/
def solar_profile : List ℚ :=
  [0, 0, 0, 0, 0, 0, 1/10, 3/10, 3/5, 4/5, 9/10, 1,
   1, 9/10, 4/5, 3/5, 3/10, 1/10, 0, 0, 0, 0, 0, 0]

/-- The flat wind profile `[0.5] * 24` (stochastic_engine.py line 51). -/
def wind_profile : List ℚ := List.replicate 24 (1/2)

/-- Embedding of `StochasticEngine`: the three profiles.  The shared
`np.random.default_rng(seed)` generator is modelled as the seed-derived
stream of standard-normal draws threaded explicitly through every call. -/
structure StochasticEngine where
  demand : StochasticProfile
  solar : StochasticProfile
  wind : StochasticProfile
deriving Repr, DecidableEq

/-- Embedding of `StochasticEngine.__init__` (stochastic_engine.py lines 38-56):
volatilities 0.05, 0.15, 0.25 for demand, solar, wind. -/
def mkStochasticEngine : StochasticEngine :=
  { demand := ⟨demand_profile, 1/20⟩
    solar := ⟨solar_profile, 3/20⟩
    wind := ⟨wind_profile, 1/4⟩ }

/-- The dictionary returned by `StochasticEngine.step_weather_and_demand`. -/
structure WeatherBundle where
  actual_demand : ℚ
  actual_solar : ℚ
  actual_wind : ℚ
  forecast_demand : List ℚ
  forecast_solar : List ℚ
  forecast_wind : List ℚ
deriving Repr, DecidableEq

/-- Embedding of `StochasticEngine.step_weather_and_demand`
(stochastic_engine.py lines 58-67): the three profiles draw from the shared
stream in the order demand, solar, wind; the advanced stream is returned. -/
def StochasticEngine.step_weather_and_demand (e : StochasticEngine)
    (current_hour horizon : ℕ) (rng : List ℚ) : WeatherBundle × List ℚ :=
  let d := e.demand.get_actual_and_forecast current_hour horizon rng
  let s := e.solar.get_actual_and_forecast current_hour horizon d.2.2
  let w := e.wind.get_actual_and_forecast current_hour horizon s.2.2
  ({ actual_demand := d.1, actual_solar := s.1, actual_wind := w.1,
     forecast_demand := d.2.1, forecast_solar := s.2.1,
     forecast_wind := w.2.1 }, w.2.2)

/-- The nuclear plant as configured in `SmartGridEnv.reset`
(smart_grid_env.py line 39). -/
def nuclearPlant : PowerPlant :=
  { name := "Nuclear Plant", plant_type := "nuclear", p_max := 300, p_min := 150,
    cost_per_mw := 20, co2_per_mw := 1/100, ramp_rate := 20 }

/-- The gas plant as configured in `SmartGridEnv.reset`
(smart_grid_env.py line 37). -/
def gasPlant : PowerPlant :=
  { name := "Gas Plant", plant_type := "gas", p_max := 100, p_min := 0,
    cost_per_mw := 150, co2_per_mw := 4/5, ramp_rate := 100 }

/-- The coal plant as configured in `SmartGridEnv.reset`
(smart_grid_env.py line 38). -/
def coalPlant : PowerPlant :=
  { name := "Coal Plant", plant_type := "coal", p_max := 150, p_min := 0,
    cost_per_mw := 50, co2_per_mw := 6/5, ramp_rate := 50 }

/-- The solar farm as configured in `SmartGridEnv.reset`
(smart_grid_env.py line 44). -/
def solarFarm : PowerPlant :=
  { name := "Solar Farm", plant_type := "solar", p_max := 150, p_min := 0,
    cost_per_mw := 0, co2_per_mw := 0, ramp_rate := 999 }

/-- The wind farm as configured in `SmartGridEnv.reset`
(smart_grid_env.py line 45). -/
def windFarm : PowerPlant :=
  { name := "Wind Farm", plant_type := "wind", p_max := 100, p_min := 0,
    cost_per_mw := 0, co2_per_mw := 0, ramp_rate := 999 }

/-- Constant `self.num_controllable_plants = 3` (smart_grid_env.py line 16). -/
def num_controllable_plants : ℕ := 3

/-- Constant `self.forecast_horizon = 12` (smart_grid_env.py line 17). -/
def forecast_horizon : ℕ := 12

/-- Constant `self.max_steps = 24` (smart_grid_env.py line 18). -/
def max_steps : ℕ := 24

/-- Constant `self.solar_capacity = 150.0` (smart_grid_env.py line 42). -/
def solar_capacity : ℚ := 150

/-- Constant `self.wind_capacity = 100.0` (smart_grid_env.py line 43). -/
def wind_capacity : ℚ := 100

/-- Constant `self.city_base_load = 400.0` (smart_grid_env.py line 47). -/
def city_base_load : ℚ := 400

/-- In-place update of the i-th element of a Python list
(`lst[i].method(...)` patterns); indices past the end leave the list
unchanged (unreachable in the modelled environment, whose lists always have
their reset length). -/
def listModify {α : Type} (f : α → α) : ℕ → List α → List α
  | _, [] => []
  | 0, a :: rest => f a :: rest
  | n + 1, a :: rest => a :: listModify f n rest

/-- The mutable per-episode state of `SmartGridEnv`: the engine, the grid,
the turn counter, the last weather bundle, and the position of the shared
random stream (modelled as the remaining stream). -/
structure EnvState where
  engine : StochasticEngine
  grid : Grid
  current_step : ℕ
  current_weather : WeatherBundle
  rng : List ℚ
deriving Repr, DecidableEq

/-- Embedding of `SmartGridEnv._update_stochastic_elements`
(smart_grid_env.py lines 56-65): overwrite the load of consumer 0 with
`actual_demand × city_base_load` and step plants 3 and 4 (solar, wind) toward
`actual × capacity`. -/
def update_stochastic_elements (g : Grid) (w : WeatherBundle) : Grid :=
  let consumers := listModify
    (fun c => c.update_load (w.actual_demand * city_base_load)) 0 g.consumers
  let plants := listModify
    (fun p => (p.step_power (w.actual_solar * solar_capacity)).1) 3 g.plants
  let plants := listModify
    (fun p => (p.step_power (w.actual_wind * wind_capacity)).1) 4 plants
  { plants := plants, consumers := consumers }

/-- Embedding of the observation builder `SmartGridEnv._get_obs`
(smart_grid_env.py lines 94-102). -/
def get_obs (s : EnvState) : List ℚ :=
  (s.grid.plants.map (fun p => p.current_power / p.p_max)) ++
    [s.current_weather.actual_wind, s.current_weather.actual_solar,
      s.current_weather.actual_demand] ++
    s.current_weather.forecast_wind ++ s.current_weather.forecast_solar ++
    s.current_weather.forecast_demand ++
    [(s.current_step : ℚ) / (max_steps : ℚ)]

/-- Embedding of `SmartGridEnv.reset` (smart_grid_env.py lines 28-54): the
fresh grid (3 controllable plants, 2 renewables, 1 consumer at its base
load), turn counter 0, the turn-0 weather draw, and its application to the
renewables and the consumer.  The numpy generator seeded by `reset(seed)` is
modelled as the seed-derived stream `seedStream` of standard-normal draws. -/
def reset (seedStream : List ℚ) : EnvState :=
  let engine := mkStochasticEngine
  let grid0 : Grid :=
    { plants := [gasPlant, coalPlant, nuclearPlant, solarFarm, windFarm]
      consumers := [{ name := "Main City", base_load := city_base_load,
                      current_load := city_base_load }] }
  let wr := engine.step_weather_and_demand 0 forecast_horizon seedStream
  { engine := engine
    grid := update_stochastic_elements grid0 wr.1
    current_step := 0
    current_weather := wr.1
    rng := wr.2 }

/-- The tuple returned by `SmartGridEnv.step`: observation, reward,
terminated, truncated, plus the blackout flag the info dictionary carries,
and the successor state. -/
structure StepResult where
  state : EnvState
  obs : List ℚ
  reward : ℚ
  terminated : Bool
  truncated : Bool
  is_blackout : Bool
deriving Repr, DecidableEq

/-- The loop `for i in range(self.num_controllable_plants)` of
`SmartGridEnv.step` (smart_grid_env.py lines 74-79): each controllable plant
is stepped toward `action[i] * p_max` and the costs and emissions are
accumulated. -/
def stepControllable : List PowerPlant → List ℚ → List PowerPlant × ℚ × ℚ
  | ps, [] => (ps, 0, 0)
  | [], _ => ([], 0, 0)
  | p :: ps, a :: rest =>
    let r := p.step_power (a * p.p_max)
    let tl := stepControllable ps rest
    (r.1 :: tl.1, r.2.1 + tl.2.1, r.2.2 + tl.2.2)

/-- Embedding of `SmartGridEnv.step` (smart_grid_env.py lines 67-92).
Returns `none` when the action vector has no element at index 0, 1 or 2 (the
Python loop raises `IndexError` there); extra elements past index 2 are never
read.  Otherwise: increment the turn, step the three controllable plants,
draw the new weather, apply it to renewables and consumer, compute the
balance, the reward, `terminated = False` and
`truncated = (current_step >= max_steps)`. -/
def step (s : EnvState) (action : List ℚ) : Option StepResult :=
  match action[0]?, action[1]?, action[2]? with
  | some a0, some a1, some a2 =>
    let new_step := s.current_step + 1
    let res := stepControllable s.grid.plants [a0, a1, a2]
    let wr := s.engine.step_weather_and_demand new_step forecast_horizon s.rng
    let g2 := update_stochastic_elements
      { plants := res.1, consumers := s.grid.consumers } wr.1
    let balance := g2.step_balance
    let s2 : EnvState :=
      { engine := s.engine, grid := g2, current_step := new_step,
        current_weather := wr.1, rng := wr.2 }
    some { state := s2
           obs := get_obs s2
           reward := -((1/10) * res.2.1 + (1/10) * res.2.2 +
             (1/2) * balance.wasted_energy + 100 * balance.unmet_demand)
           terminated := false
           truncated := decide (max_steps ≤ new_step)
           is_blackout := balance.is_blackout }
  | _, _, _ => none

/-- The environment as seen by a caller: `none` before the first `reset`
(the Python object lacks `current_step` and `grid` until then).  A `step` on
the un-reset environment raises `AttributeError`; a `step` whose action lacks
index 0, 1 or 2 raises `IndexError`; both are modelled as `Except.error`. -/
def stepEnv : Option EnvState → List ℚ → Except String StepResult
  | none, _ => Except.error "AttributeError"
  | some s, a =>
    match step s a with
    | none => Except.error "IndexError"
    | some r => Except.ok r

/-- One full run: `reset(seed)` then the given `step` action sequence,
collecting the observation and reward of each turn (`none` marks the run aborted
by an exception). -/
def runFrom : EnvState → List (List ℚ) → List (Option (List ℚ × ℚ))
  | _, [] => []
  | s, a :: rest =>
    match step s a with
    | none => [none]
    | some r => some (r.obs, r.reward) :: runFrom r.state rest

/-- Run of `reset(seedStream)` followed by the action sequence. -/
def runEpisode (seedStream : List ℚ) (actions : List (List ℚ)) :
    List (Option (List ℚ × ℚ)) :=
  runFrom (reset seedStream) actions

/-- The static identity and parameters of a plant, everything `step` must
not change: name, type, p_max, p_min, cost_per_mw, co2_per_mw, ramp_rate. -/
def plantStatics (p : PowerPlant) : String × String × ℚ × ℚ × ℚ × ℚ × ℚ :=
  (p.name, p.plant_type, p.p_max, p.p_min, p.cost_per_mw, p.co2_per_mw,
   p.ramp_rate)

/-- The static identity of a consumer: name and base load. -/
def consumerStatics (c : Consumer) : String × ℚ :=
  (c.name, c.base_load)

/-- A cheap concrete environment state used to instantiate universally
quantified theorems at a closed input. -/
def tinyState : EnvState :=
  { engine := mkStochasticEngine
    grid := { plants := [], consumers := [] }
    current_step := 0
    current_weather := ⟨0, 0, 0, [], [], []⟩
    rng := [] }

/-- The full structural property of one `get_actual_and_forecast` call with
horizon `hor` from hour `h` and draw stream `rng`: the actual value is the
offset-0 element, the forecast is the `hor` elements at offsets `1 .. hor`,
each element is the clamped `trend + volatility·trend·multiplier·z`, the
multiplier ramp runs linearly from 1/2 at offset 0 to 3 at offset `hor`,
`hor + 1` draws are consumed, all returned values are non-negative, and for a
flat non-negative trend the noise standard deviation is monotone in the
offset. -/
def forecastSpecC4 (sp : StochasticProfile) (h hor : ℕ) (rng : List ℚ) : Prop :=
  (sp.get_actual_and_forecast h hor rng).1 = valueAt sp h hor rng 0 ∧
  (sp.get_actual_and_forecast h hor rng).2.1 =
    (List.range hor).map (fun i => valueAt sp h hor rng (i + 1)) ∧
  (sp.get_actual_and_forecast h hor rng).2.1.length = hor ∧
  (sp.get_actual_and_forecast h hor rng).2.2 = rng.drop (hor + 1) ∧
  linspace (1/2) 3 (hor + 1) = (List.range (hor + 1)).map (multAt hor) ∧
  multAt hor 0 = 1/2 ∧
  multAt hor hor = 3 ∧
  (0 ≤ (sp.get_actual_and_forecast h hor rng).1 ∧
    ∀ v ∈ (sp.get_actual_and_forecast h hor rng).2.1, 0 ≤ v) ∧
  (∀ c : ℚ, sp.base_profile = List.replicate 24 c → 0 ≤ c →
    0 ≤ sp.noise_volatility →
    ∀ i : ℕ, i + 1 ≤ hor → stdAt sp h hor i ≤ stdAt sp h hor (i + 1))

end SmartGrid

namespace SmartGrid

/-- C1 counterexample: the nuclear-configured plant (p_min = 150, p_max = 300,
ramp_rate = 20) driven from output 0 by a single `step_power` with target 300
ends at `current_power = 20`, which is neither 0 nor inside `[150, 300]`.  So
the plant output does not lie in `{0} ∪ [p_min, p_max]` after every call. -/
theorem c1_counterexample :
    (nuclearPlant.step_power 300).1.current_power = 20 ∧
      ¬((nuclearPlant.step_power 300).1.current_power = 0 ∨
        (150 ≤ (nuclearPlant.step_power 300).1.current_power ∧
          (nuclearPlant.step_power 300).1.current_power ≤ 300)) := by
  refine ⟨?_, ?_⟩ <;> simp [nuclearPlant, PowerPlant.step_power] <;> norm_num

/-- C1 (amended): resting states are legal.  For a plant with
`0 ≤ p_min ≤ p_max` and `0 < ramp_rate`, and a non-negative target, whenever a
`step_power` call leaves `current_power` unchanged (a resting state), that
output is 0 or lies in `[p_min, p_max]`.  In particular the nuclear plant,
driven from 0 with constant target 300, can never rest at a value strictly
between 0 and 150, since any resting value is 0 or in `[150, 300]`. -/
theorem c1_resting_state_legal (p : PowerPlant) (t : ℚ)
    (hmin : 0 ≤ p.p_min) (hminmax : p.p_min ≤ p.p_max) (hramp : 0 < p.ramp_rate)
    (ht : 0 ≤ t)
    (hrest : (p.step_power t).1.current_power = p.current_power) :
    p.current_power = 0 ∨ (p.p_min ≤ p.current_power ∧ p.current_power ≤ p.p_max) := by
  unfold PowerPlant.step_power at hrest
  simp only at hrest
  set t1 : ℚ := if 0 < t ∧ t < p.p_min then 0 else t with ht1
  set t2 : ℚ := min t1 p.p_max with ht2
  by_cases hbig : p.ramp_rate < |t2 - p.current_power|
  · -- the applied delta is ±ramp_rate ≠ 0, contradicting the resting hypothesis
    rw [if_pos hbig] at hrest
    by_cases hpos : 0 < t2 - p.current_power
    · rw [if_pos hpos] at hrest
      have : p.ramp_rate = 0 := by linarith [hrest]
      exact absurd this (ne_of_gt hramp)
    · rw [if_neg hpos] at hrest
      have : p.ramp_rate = 0 := by linarith [hrest]
      exact absurd this (ne_of_gt hramp)
  · -- the applied delta is t2 - current_power, so current_power = t2
    rw [if_neg hbig] at hrest
    have hcur : p.current_power = t2 := by linarith [hrest]
    by_cases hclamp : 0 < t ∧ t < p.p_min
    · -- target was snapped to 0
      left
      have : t1 = 0 := by rw [ht1, if_pos hclamp]
      rw [hcur, ht2, this]
      exact min_eq_left (by linarith)
    · -- target is 0 or at least p_min
      have ht1t : t1 = t := by rw [ht1, if_neg hclamp]
      rcases (not_and_or.mp hclamp) with hle | hge
      · -- t ≤ 0, so t = 0
        have ht0 : t = 0 := le_antisymm (not_lt.mp hle) ht
        left
        rw [hcur, ht2, ht1t, ht0]
        exact min_eq_left (by linarith)
      · -- p_min ≤ t
        have hpm : p.p_min ≤ t := not_lt.mp hge
        right
        constructor
        · rw [hcur, ht2, ht1t]
          exact le_min hpm hminmax
        · rw [hcur, ht2, ht1t]
          exact min_le_right _ _
/-- C1 witness: the nuclear plant already at output 300 rests there under
target 300, and the theorem places that resting output in `{0} ∪ [150, 300]`. -/
theorem c1_resting_state_legal_witness :
    ({ nuclearPlant with current_power := 300 } : PowerPlant).current_power = 0 ∨
      (({ nuclearPlant with current_power := 300 } : PowerPlant).p_min ≤
          ({ nuclearPlant with current_power := 300 } : PowerPlant).current_power ∧
        ({ nuclearPlant with current_power := 300 } : PowerPlant).current_power ≤
          ({ nuclearPlant with current_power := 300 } : PowerPlant).p_max) :=
  c1_resting_state_legal { nuclearPlant with current_power := 300 } 300
    (by norm_num [nuclearPlant]) (by norm_num [nuclearPlant])
    (by norm_num [nuclearPlant]) (by norm_num)
    (by norm_num [nuclearPlant, PowerPlant.step_power])

/-- C2 counterexample: the gas-configured plant (cost_per_mw = 150) at
`current_power = 0` given the target −5 is driven to `current_power = −5 < 0`
with hourly cost −750 < 0: a negative target is not clamped (the sub-minimum
clamp requires `target > 0`), so neither the output nor the cost stays
non-negative for an arbitrary real target. -/
theorem c2_counterexample :
    (gasPlant.step_power (-5)).1.current_power = -5 ∧
      (gasPlant.step_power (-5)).2.1 = -750 ∧
      ¬(0 ≤ (gasPlant.step_power (-5)).1.current_power) ∧
      ¬(0 ≤ (gasPlant.step_power (-5)).2.1) := by
  refine ⟨?_, ?_, ?_, ?_⟩ <;> norm_num [gasPlant, PowerPlant.step_power]

/-- C2 (amended): for a plant with non-negative static parameters
(`0 ≤ p_max`, `0 ≤ ramp_rate`, `0 ≤ cost_per_mw`, `0 ≤ co2_per_mw`) whose
`current_power` is non-negative, a `step_power` call with a *non-negative*
target leaves `current_power ≥ 0` and returns non-negative hourly cost and
hourly emissions. -/
theorem c2_nonneg_preserved (p : PowerPlant) (t : ℚ)
    (hpmax : 0 ≤ p.p_max) (hramp : 0 ≤ p.ramp_rate)
    (hcost : 0 ≤ p.cost_per_mw) (hco2 : 0 ≤ p.co2_per_mw)
    (hcur : 0 ≤ p.current_power) (ht : 0 ≤ t) :
    0 ≤ (p.step_power t).1.current_power ∧
      0 ≤ (p.step_power t).2.1 ∧ 0 ≤ (p.step_power t).2.2 := by
  have hkey : 0 ≤ (p.step_power t).1.current_power := by
    unfold PowerPlant.step_power
    simp only
    set t1 : ℚ := if 0 < t ∧ t < p.p_min then 0 else t with ht1
    have ht1nn : 0 ≤ t1 := by
      rw [ht1]; split
      · exact le_refl 0
      · exact ht
    have ht2nn : 0 ≤ min t1 p.p_max := le_min ht1nn hpmax
    set t2 : ℚ := min t1 p.p_max with ht2
    by_cases hbig : p.ramp_rate < |t2 - p.current_power|
    · rw [if_pos hbig]
      by_cases hpos : 0 < t2 - p.current_power
      · rw [if_pos hpos]; linarith
      · rw [if_neg hpos]
        -- moving down by ramp_rate cannot overshoot below t2 ≥ 0
        have habs : |t2 - p.current_power| = p.current_power - t2 := by
          rw [abs_of_nonpos (by linarith [not_lt.mp hpos])]; ring
        rw [habs] at hbig
        linarith
    · rw [if_neg hbig]
      have : p.current_power + (t2 - p.current_power) = t2 := by ring
      rw [this]
      exact ht2nn
  refine ⟨hkey, ?_, ?_⟩
  · exact mul_nonneg hkey hcost
  · exact mul_nonneg hkey hco2

/-- C2 witness: the gas plant at output 0 with target 50 satisfies all the
hypotheses and the conclusion. -/
theorem c2_nonneg_preserved_witness :
    0 ≤ (gasPlant.step_power 50).1.current_power ∧
      0 ≤ (gasPlant.step_power 50).2.1 ∧ 0 ≤ (gasPlant.step_power 50).2.2 :=
  c2_nonneg_preserved gasPlant 50 (by norm_num [gasPlant]) (by norm_num [gasPlant])
    (by norm_num [gasPlant]) (by norm_num [gasPlant]) (by norm_num [gasPlant])
    (by norm_num)

/-- C6: one `step_power` call changes `current_power` by at most `ramp_rate`
in absolute value, for every plant (with the non-negative ramp
rate of the data model), every starting output and every target. -/
theorem c6_ramp_rate_bound (p : PowerPlant) (t : ℚ) (hramp : 0 ≤ p.ramp_rate) :
    |(p.step_power t).1.current_power - p.current_power| ≤ p.ramp_rate := by
  unfold PowerPlant.step_power
  simp only
  set t2 : ℚ := min (if 0 < t ∧ t < p.p_min then 0 else t) p.p_max with ht2
  by_cases hbig : p.ramp_rate < |t2 - p.current_power|
  · rw [if_pos hbig]
    by_cases hpos : 0 < t2 - p.current_power
    · rw [if_pos hpos]
      have : p.current_power + p.ramp_rate - p.current_power = p.ramp_rate := by ring
      rw [this, abs_of_nonneg hramp]
    · rw [if_neg hpos]
      have : p.current_power + -p.ramp_rate - p.current_power = -p.ramp_rate := by ring
      rw [this, abs_neg, abs_of_nonneg hramp]
  · rw [if_neg hbig]
    have : p.current_power + (t2 - p.current_power) - p.current_power =
        t2 - p.current_power := by ring
    rw [this]
    exact not_lt.mp hbig

/-- C6 witness: the nuclear plant (ramp_rate = 20) stepped from 0 toward 300
moves by |20 − 0| ≤ 20. -/
theorem c6_ramp_rate_bound_witness :
    |(nuclearPlant.step_power 300).1.current_power - nuclearPlant.current_power| ≤
      nuclearPlant.ramp_rate :=
  c6_ramp_rate_bound nuclearPlant 300 (by norm_num [nuclearPlant])

/-- C3: `step_balance` returns the sum of plant outputs as production, the sum
of consumer loads as demand, their difference as delta, blackout iff delta < 0,
`unmet_demand = max 0 (−delta)`, `wasted_energy = max 0 delta`; when delta = 0
both the flag and both magnitudes are false/zero, and at most one of
`unmet_demand` and `wasted_energy` is nonzero. -/
theorem c3_balance_correct (g : Grid) :
    (g.step_balance).total_production = (g.plants.map (fun p => p.current_power)).sum ∧
      (g.step_balance).total_demand = (g.consumers.map (fun c => c.current_load)).sum ∧
      (g.step_balance).delta = (g.step_balance).total_production - (g.step_balance).total_demand ∧
      ((g.step_balance).is_blackout = true ↔ (g.step_balance).delta < 0) ∧
      (g.step_balance).unmet_demand = max 0 (-(g.step_balance).delta) ∧
      (g.step_balance).wasted_energy = max 0 ((g.step_balance).delta) ∧
      ((g.step_balance).delta = 0 →
        (g.step_balance).is_blackout = false ∧ (g.step_balance).unmet_demand = 0 ∧
          (g.step_balance).wasted_energy = 0) ∧
      ((g.step_balance).unmet_demand = 0 ∨ (g.step_balance).wasted_energy = 0) := by
  unfold Grid.step_balance
  simp only
  set d : ℚ := (g.plants.map (fun p => p.current_power)).sum -
    (g.consumers.map (fun c => c.current_load)).sum with hd
  refine ⟨trivial, trivial, trivial, by simp, ?_, ?_, ?_, ?_⟩
  · by_cases h : d < 0
    · rw [if_pos h, abs_of_neg h, max_eq_right (by linarith)]
    · rw [if_neg h, max_eq_left (by linarith [not_lt.mp h])]
  · by_cases h : 0 < d
    · rw [if_pos h, max_eq_right (le_of_lt h)]
    · rw [if_neg h, max_eq_left (not_lt.mp h)]
  · intro h0
    rw [h0]
    norm_num
  · by_cases h : d < 0
    · right
      rw [if_neg (by linarith)]
    · left
      rw [if_neg h]

/-- For a horizon of at least 1, the numpy call `linspace(0.5, 3.0, horizon+1)` is
the linear ramp `multAt`. -/
lemma linspace_eq_map_multAt (hor : ℕ) (h1 : 1 ≤ hor) :
    linspace (1/2) 3 (hor + 1) = (List.range (hor + 1)).map (multAt hor) := by
  unfold linspace
  rw [if_neg (by omega), if_neg (by omega)]
  apply List.map_congr_left
  intro i _
  have hc : ((hor + 1 : ℕ) : ℚ) - 1 = (hor : ℚ) := by push_cast; ring
  rw [hc]
  norm_num [multAt]

/-- Decomposition of `get_actual_and_forecast`: the returned triple is built
from the elementwise values `valueAt` over offsets `0 .. horizon`. -/
lemma get_actual_and_forecast_eq (sp : StochasticProfile) (h hor : ℕ)
    (rng : List ℚ) (h1 : 1 ≤ hor) :
    sp.get_actual_and_forecast h hor rng =
      ((((List.range (hor + 1)).map (valueAt sp h hor rng)).headD 0,
        ((List.range (hor + 1)).map (valueAt sp h hor rng)).tail,
        rng.drop (hor + 1))) := by
  unfold StochasticProfile.get_actual_and_forecast
  simp only [linspace_eq_map_multAt hor h1, List.map_map, List.zipWith_map,
    List.zipWith_same]
  rfl

/-- C4 (amended to horizon ≥ 1, the only horizons at which a two-endpoint
ramp exists): `get_actual_and_forecast` reads the 24-entry base profile at
hours `(current_hour + i) % 24`, scales zero-mean noise by
`volatility × trend × multiplier` where the multiplier ramps linearly from
exactly 1/2 at offset 0 to exactly 3 at offset `horizon`, clamps each value at
0, returns the offset-0 element as the actual and the remaining `horizon`
elements as the forecast, and for a flat trend the noise standard deviation is
monotone non-decreasing in the offset.  (At `horizon = 0` the numpy call
`linspace(0.5, 3.0, 1)` is `[0.5]`, so the endpoint claim fails there; see the
counterexample.) -/
theorem c4_forecast_structure (sp : StochasticProfile) (h hor : ℕ)
    (rng : List ℚ) (h1 : 1 ≤ hor) : forecastSpecC4 sp h hor rng := by
  have hdec := get_actual_and_forecast_eq sp h hor rng h1
  have hrange : List.range (hor + 1) = 0 :: (List.range hor).map Nat.succ :=
    List.range_succ_eq_map hor
  have hmap : (List.range (hor + 1)).map (valueAt sp h hor rng) =
      valueAt sp h hor rng 0 ::
        (List.range hor).map (fun i => valueAt sp h hor rng (i + 1)) := by
    rw [hrange]
    simp [List.map_map, Function.comp, Nat.succ_eq_add_one]
  have hfst : (sp.get_actual_and_forecast h hor rng).1 = valueAt sp h hor rng 0 := by
    rw [hdec, hmap]; rfl
  have hsnd : (sp.get_actual_and_forecast h hor rng).2.1 =
      (List.range hor).map (fun i => valueAt sp h hor rng (i + 1)) := by
    rw [hdec, hmap]; rfl
  refine ⟨hfst, hsnd, ?_, ?_, linspace_eq_map_multAt hor h1, ?_, ?_, ⟨?_, ?_⟩, ?_⟩
  · rw [hsnd]; simp
  · rw [hdec]
  · norm_num [multAt]
  · have hne : (hor : ℚ) ≠ 0 := Nat.cast_ne_zero.mpr (by omega)
    unfold multAt
    rw [mul_comm, mul_div_assoc, div_self hne, mul_one]
    norm_num
  · rw [hfst]; exact le_max_right _ _
  · intro v hv
    rw [hsnd] at hv
    obtain ⟨i, _, hvi⟩ := List.mem_map.mp hv
    rw [← hvi]
    exact le_max_right _ _
  · intro c hflat hc hvol i hi
    have htr : ∀ j : ℕ, trendAt sp h j = c := by
      intro j
      unfold trendAt
      rw [hflat, List.getD_eq_getElem?_getD, List.getElem?_replicate]
      simp [Nat.mod_lt _ (by norm_num : 0 < 24)]
    unfold stdAt
    rw [htr i, htr (i + 1)]
    have hmult : multAt hor i ≤ multAt hor (i + 1) := by
      unfold multAt
      have hhor : (0 : ℚ) < (hor : ℚ) := by exact_mod_cast (by omega : 0 < hor)
      push_cast
      gcongr
      linarith
    exact mul_le_mul_of_nonneg_left hmult (mul_nonneg hvol hc)

/-- C4 witness: the flat unit profile with volatility 1, hour 0, horizon 1 and
the empty draw stream satisfies the full structural property. -/
theorem c4_forecast_structure_witness :
    forecastSpecC4 ⟨List.replicate 24 1, 1⟩ 0 1 [] :=
  c4_forecast_structure ⟨List.replicate 24 1, 1⟩ 0 1 [] (by norm_num)

/-- C4 counterexample: at `horizon = 0` the multiplier list is the single
value 1/2, so the multiplier at offset `horizon` is 1/2, not the claimed 3;
on the flat unit profile with volatility 1 and the standard draw 1, the
returned actual is `1 + 1·1·(1/2)·1 = 3/2`, not the `1 + 3 = 4` that a
multiplier of 3 would give. -/
theorem c4_counterexample :
    linspace (1/2) 3 (0 + 1) = [1/2] ∧ (1/2 : ℚ) ≠ 3 ∧
      ((⟨List.replicate 24 1, 1⟩ : StochasticProfile).get_actual_and_forecast
        0 0 [1]).1 = 3/2 ∧ (3/2 : ℚ) ≠ 1 + 3 := by
  refine ⟨?_, by norm_num, ?_, by norm_num⟩
  · unfold linspace
    norm_num
  · norm_num [StochasticProfile.get_actual_and_forecast, linspace,
      List.range_succ, List.range_zero, List.getD_eq_getElem?_getD,
      List.getElem?_replicate]

/-- C3 witness: a concrete grid with delta = 0 (one plant at 5 MW, one
consumer at 5 MW) satisfies every conjunct, including the delta = 0 clause. -/
theorem c3_balance_correct_witness :
    ((Grid.mk [{ nuclearPlant with current_power := 5 }]
        [⟨"Main City", 400, 5⟩]).step_balance).delta = 0 ∧
      ((Grid.mk [{ nuclearPlant with current_power := 5 }]
          [⟨"Main City", 400, 5⟩]).step_balance).is_blackout = false ∧
      ((Grid.mk [{ nuclearPlant with current_power := 5 }]
          [⟨"Main City", 400, 5⟩]).step_balance).unmet_demand = 0 ∧
      ((Grid.mk [{ nuclearPlant with current_power := 5 }]
          [⟨"Main City", 400, 5⟩]).step_balance).wasted_energy = 0 := by
  have hd : ((Grid.mk [{ nuclearPlant with current_power := 5 }]
      [⟨"Main City", 400, 5⟩]).step_balance).delta = 0 := by
    norm_num [Grid.step_balance]
  have h := (c3_balance_correct (Grid.mk [{ nuclearPlant with current_power := 5 }]
    [⟨"Main City", 400, 5⟩])).2.2.2.2.2.2.1 hd
  exact ⟨hd, h.1, h.2.1, h.2.2⟩

/-- Fact: `listModify` commutes with `map` whenever the modification is invisible
to the mapped function. -/
lemma listModify_map {α β : Type} (f : α → α) (gm : α → β)
    (h : ∀ a, gm (f a) = gm a) (n : ℕ) (l : List α) :
    (listModify f n l).map gm = l.map gm := by
  induction l generalizing n with
  | nil => cases n <;> rfl
  | cons a rest ih =>
    cases n with
    | zero => simp [listModify, h]
    | succ m => simp [listModify, ih]

/-- Fact: `step_power` changes only `current_power` and `is_on`. -/
lemma plantStatics_step_power (p : PowerPlant) (t : ℚ) :
    plantStatics (p.step_power t).1 = plantStatics p := rfl

/-- Fact: the controllable-plant loop preserves the static parameters of
every plant (and the number and order of plants). -/
lemma stepControllable_statics (ps : List PowerPlant) (acts : List ℚ) :
    ((stepControllable ps acts).1).map plantStatics = ps.map plantStatics := by
  induction ps generalizing acts with
  | nil => cases acts <;> rfl
  | cons p rest ih =>
    cases acts with
    | nil => rfl
    | cons a tl =>
      simp only [stepControllable, List.map_cons]
      rw [plantStatics_step_power, ih]

/-- Fact: `_update_stochastic_elements` preserves the static
parameters of every plant. -/
lemma update_stochastic_plants_statics (g : Grid) (w : WeatherBundle) :
    (update_stochastic_elements g w).plants.map plantStatics =
      g.plants.map plantStatics := by
  unfold update_stochastic_elements
  simp only
  rw [listModify_map (fun p => (p.step_power (w.actual_wind * wind_capacity)).1)
      plantStatics (fun p => rfl) 4,
    listModify_map (fun p => (p.step_power (w.actual_solar * solar_capacity)).1)
      plantStatics (fun p => rfl) 3]

/-- Fact: `_update_stochastic_elements` preserves the name and base load
of every consumer. -/
lemma update_stochastic_consumers_statics (g : Grid) (w : WeatherBundle) :
    (update_stochastic_elements g w).consumers.map consumerStatics =
      g.consumers.map consumerStatics := by
  unfold update_stochastic_elements
  simp only
  rw [listModify_map (fun c => c.update_load (w.actual_demand * city_base_load))
      consumerStatics (fun c => rfl) 0]

/-- A `step` with at least three action entries never reads past index 2. -/
lemma step_cons_eq (s : EnvState) (a0 a1 a2 : ℚ) (rest : List ℚ) :
    step s (a0 :: a1 :: a2 :: rest) = step s [a0, a1, a2] := by
  simp only [step, List.getElem?_cons_zero, List.getElem?_cons_succ]

/-- C5: two runs of `reset(seed)` followed by the identical action sequence
produce identical observation and reward sequences (all randomness is the
seed-derived draw stream), and within one weather step the three profiles
consume the shared stream in the fixed order demand, solar, wind: demand
reads the stream at offset 0, solar at offset `horizon+1`, wind at offset
`2(horizon+1)`, and the stream advances by `3(horizon+1)` draws. -/
theorem c5_seed_determinism (g₁ g₂ : List ℚ) (as₁ as₂ : List (List ℚ))
    (hg : g₁ = g₂) (ha : as₁ = as₂)
    (e : StochasticEngine) (h hor : ℕ) (rng : List ℚ) :
    runEpisode g₁ as₁ = runEpisode g₂ as₂ ∧
    (e.step_weather_and_demand h hor rng).1.actual_demand =
      (e.demand.get_actual_and_forecast h hor rng).1 ∧
    (e.step_weather_and_demand h hor rng).1.actual_solar =
      (e.solar.get_actual_and_forecast h hor (rng.drop (hor + 1))).1 ∧
    (e.step_weather_and_demand h hor rng).1.actual_wind =
      (e.wind.get_actual_and_forecast h hor
        (rng.drop ((hor + 1) + (hor + 1)))).1 ∧
    (e.step_weather_and_demand h hor rng).2 =
      rng.drop ((hor + 1) + (hor + 1) + (hor + 1)) := by
  subst hg ha
  refine ⟨rfl, rfl, ?_, ?_, ?_⟩ <;>
    simp [StochasticEngine.step_weather_and_demand,
      StochasticProfile.get_actual_and_forecast, List.drop_drop]

/-- C5 witness: the theorem applied to the concrete seed stream `[1]` and the
single-action run `[[1, 0, 0]]`, with the weather-step draw-order conjuncts
instantiated at the configured engine, hour 0, horizon 12. -/
theorem c5_seed_determinism_witness :
    runEpisode [1] [[1, 0, 0]] = runEpisode [1] [[1, 0, 0]] ∧
    (mkStochasticEngine.step_weather_and_demand 0 12 [1]).1.actual_demand =
      (mkStochasticEngine.demand.get_actual_and_forecast 0 12 [1]).1 ∧
    (mkStochasticEngine.step_weather_and_demand 0 12 [1]).1.actual_solar =
      (mkStochasticEngine.solar.get_actual_and_forecast 0 12
        (([1] : List ℚ).drop (12 + 1))).1 ∧
    (mkStochasticEngine.step_weather_and_demand 0 12 [1]).1.actual_wind =
      (mkStochasticEngine.wind.get_actual_and_forecast 0 12
        (([1] : List ℚ).drop ((12 + 1) + (12 + 1)))).1 ∧
    (mkStochasticEngine.step_weather_and_demand 0 12 [1]).2 =
      ([1] : List ℚ).drop ((12 + 1) + (12 + 1) + (12 + 1)) :=
  c5_seed_determinism [1] [1] [[1, 0, 0]] [[1, 0, 0]] rfl rfl
    mkStochasticEngine 0 12 [1]

/-- C7: from a fresh reset the turn counter is 0; every step call increments
it by exactly 1, returns `terminated = false` unconditionally, and
`truncated = true` iff the incremented counter has reached 24.  Hence
truncated is false on step calls 1 through 23 and true on the 24th and every
later call. -/
theorem c7_turn_counter (g : List ℚ) (s : EnvState) (a0 a1 a2 : ℚ)
    (rest : List ℚ) :
    (reset g).current_step = 0 ∧
    ∃ r : StepResult, step s (a0 :: a1 :: a2 :: rest) = some r ∧
      r.state.current_step = s.current_step + 1 ∧
      r.terminated = false ∧
      (r.truncated = true ↔ 24 ≤ s.current_step + 1) := by
  refine ⟨rfl, ?_⟩
  simp only [step, List.getElem?_cons_zero, List.getElem?_cons_succ]
  refine ⟨_, rfl, rfl, rfl, ?_⟩
  simp [max_steps]

/-- C8: the reward returned by a step call is
`−(0.1·total_cost + 0.1·total_emissions + 0.5·wasted + 100·unmet)`, where the
cost and emissions are accumulated over exactly the three controllable plants
and the wasted/unmet magnitudes come from the balance of the post-step grid,
i.e. the grid after the controllable plants, renewables and consumer load
have all been advanced for this turn. -/
theorem c8_reward_formula (s : EnvState) (a0 a1 a2 : ℚ) (rest : List ℚ) :
    ∃ r : StepResult, step s (a0 :: a1 :: a2 :: rest) = some r ∧
      r.reward = -((1/10) * (stepControllable s.grid.plants [a0, a1, a2]).2.1 +
        (1/10) * (stepControllable s.grid.plants [a0, a1, a2]).2.2 +
        (1/2) * r.state.grid.step_balance.wasted_energy +
        100 * r.state.grid.step_balance.unmet_demand) ∧
      r.state.grid = update_stochastic_elements
        { plants := (stepControllable s.grid.plants [a0, a1, a2]).1,
          consumers := s.grid.consumers }
        (s.engine.step_weather_and_demand (s.current_step + 1)
          forecast_horizon s.rng).1 := by
  simp only [step, List.getElem?_cons_zero, List.getElem?_cons_succ]
  exact ⟨_, rfl, rfl, rfl⟩

/-- C9 counterexample: an action vector of length 4 — a length different
from 3 — does not fail: the step on a freshly reset environment returns a
normal result, because the loop reads only indices 0, 1, 2. -/
theorem c9_counterexample :
    ([0, 0, 0, 0] : List ℚ).length ≠ 3 ∧
      (stepEnv (some (reset [])) [0, 0, 0, 0]).isOk = true := by
  exact ⟨by decide, by decide⟩

/-- C9 (amended): a step call whose action vector has *fewer than 3* entries
fails fast (`IndexError`), a step call before any reset fails fast
(`AttributeError`), both signalled as errors distinct from every normal
simulation outcome; an action vector with more than 3 entries is accepted
and its entries past index 2 are never read; a step with indices 0-2 present
(in-range simulation, with all clamping silent) never raises. -/
theorem c9_error_handling (s : EnvState) (a b : List ℚ) (hshort : b.length < 3)
    (a0 a1 a2 : ℚ) (rest : List ℚ) :
    (stepEnv none a).isOk = false ∧
    (stepEnv (some s) b).isOk = false ∧
    (stepEnv (some s) (a0 :: a1 :: a2 :: rest)).isOk = true ∧
    stepEnv (some s) (a0 :: a1 :: a2 :: rest) = stepEnv (some s) [a0, a1, a2] := by
  refine ⟨rfl, ?_, ?_, ?_⟩
  · match b, hshort with
    | [], _ => rfl
    | [x], _ => rfl
    | [x, y], _ => rfl
    | x :: y :: z :: tl, hshort => exact absurd hshort (by simp)
  · simp only [stepEnv, step, List.getElem?_cons_zero, List.getElem?_cons_succ]
    rfl
  · simp only [stepEnv, step_cons_eq]

/-- C9 witness: concrete instances — the un-reset environment rejects `[]`,
a reset-shaped state rejects the length-1 action `[0]`, accepts `[0, 0, 0]`,
and reads no entry past index 2. -/
theorem c9_error_handling_witness :
    (stepEnv none []).isOk = false ∧
    (stepEnv (some tinyState) [0]).isOk = false ∧
    (stepEnv (some tinyState) (0 :: 0 :: 0 :: [])).isOk = true ∧
    stepEnv (some tinyState) (0 :: 0 :: 0 :: []) =
      stepEnv (some tinyState) [0, 0, 0] :=
  c9_error_handling tinyState [] [0] (by decide) 0 0 0 []

/-- C10: a step call leaves the static configuration unchanged — the
name of every plant, its type, p_max, p_min, cost_per_mw, co2_per_mw and
ramp_rate, the name and base_load of every consumer, the number and order of
plants and consumers (the mapped statics lists coincide), and the engine
(hence the base_profile and noise_volatility of each profile). -/
theorem c10_step_frame (s : EnvState) (a0 a1 a2 : ℚ) (rest : List ℚ) :
    ∃ r : StepResult, step s (a0 :: a1 :: a2 :: rest) = some r ∧
      r.state.grid.plants.map plantStatics = s.grid.plants.map plantStatics ∧
      r.state.grid.consumers.map consumerStatics =
        s.grid.consumers.map consumerStatics ∧
      r.state.engine = s.engine := by
  simp only [step, List.getElem?_cons_zero, List.getElem?_cons_succ]
  refine ⟨_, rfl, ?_, ?_, rfl⟩
  · rw [update_stochastic_plants_statics]
    exact stepControllable_statics s.grid.plants [a0, a1, a2]
  · rw [update_stochastic_consumers_statics]

end SmartGrid
